import Mathlib

/-!
Shallow embedding of `src/main.py` (a WhatsApp webhook chatbot bridging the
Evolution API gateway to the Gemini generation service), together with
theorems settling the specification's claims.

The embedding models the nested JSON envelopes as inductive types with
optional fields mirroring the Python `dict.get` defaults, the external world
(gateway pages, media decrypt, generation, outbound sends) as explicit
oracle inputs, and the handler as a pure function returning its HTTP result
together with the ordered trace of outbound calls, the final temp-file
state, and the list of temp files created.
-/

namespace WebhookWhatsapp

/-- The nested `message` dict of an inbound record or live event.
`extendedTextMessage : Option (Option String)` distinguishes the outer key
being absent (`none`), present without a `text` field (`some none`), and
present with text (`some (some t)`), because the Python code checks outer
key presence (`in`) and inner text truthiness separately. -/
inductive MessageObj where
  | mk
    (ephemeralMessage : Option MessageObj)
    (extendedTextMessage : Option (Option String))
    (conversation : Option String)
    (audioMessage : Bool)

def MessageObj.ephemeralMessage : MessageObj → Option MessageObj
  | .mk e _ _ _ => e

def MessageObj.extendedTextMessage : MessageObj → Option (Option String)
  | .mk _ t _ _ => t

def MessageObj.conversation : MessageObj → Option String
  | .mk _ _ c _ => c

def MessageObj.audioMessage : MessageObj → Bool
  | .mk _ _ _ a => a

/-- The empty dict `{}` used as the default for missing message envelopes. -/
def emptyMessageObj : MessageObj := .mk none none none false

/-- Lines 47-48 and 180: `if "ephemeralMessage" in message_obj:
message_obj = message_obj.get("ephemeralMessage", {}).get("message", {})`.
A present wrapper whose inner `message` key is absent is represented by
storing `emptyMessageObj` inside the wrapper. -/
def unwrapEphemeral (m : MessageObj) : MessageObj :=
  match m.ephemeralMessage with
  | some inner => inner
  | none => m

/-- Python `str.strip()` on the character sequence: drop whitespace from
both ends. (Defined over the character list so that it evaluates by kernel
reduction; `String.trim` is defined by well-founded recursion on byte
positions and does not.) -/
def pyStrip (s : String) : String :=
  ⟨(((s.data.dropWhile Char.isWhitespace).reverse.dropWhile Char.isWhitespace).reverse)⟩

/-- Lines 50-53 and 193: `(message_obj.get("extendedTextMessage", {}).get("text")
or message_obj.get("conversation", "")).strip()`. A missing or empty (falsy)
extended text falls through to the `conversation` field. -/
def extractTextRaw (m : MessageObj) : String :=
  pyStrip
    (match m.extendedTextMessage with
     | some (some t) => if t = "" then m.conversation.getD "" else t
     | some none => m.conversation.getD ""
     | none => m.conversation.getD "")

/-- The live extractor's classification of an (already unwrapped) envelope,
mirroring the branch structure of lines 192-250: the text branch is taken on
key presence of `extendedTextMessage` or `conversation`, inside which empty
trimmed text yields no content; otherwise the `audioMessage` branch;
otherwise unsupported. -/
inductive Extracted where
  | text (t : String)
  | noContent
  | audioMsg
  | unsupported
  deriving DecidableEq

def classify (m : MessageObj) : Extracted :=
  if m.extendedTextMessage.isSome || m.conversation.isSome then
    (let t := extractTextRaw m
     if t = "" then .noContent else .text t)
  else if m.audioMessage then .audioMsg
  else .unsupported

/-- Live extraction as performed by the handler: unwrap one ephemeral level
(line 180), then classify (lines 192-250). -/
def extractLive (m : MessageObj) : Extracted :=
  classify (unwrapEphemeral m)

/-- The envelope `{"ephemeralMessage": {"message": m}}`. -/
def wrapEphemeral (m : MessageObj) : MessageObj :=
  .mk (some m) none none false

/-- The `key` dict of an event or history record:
`{remoteJid, fromMe, id}`, each possibly absent. -/
structure MsgKey where
  remoteJid : Option String
  fromMe : Bool
  id : Option String
  deriving DecidableEq

/-- One raw history record as returned by the gateway's find-messages call. -/
structure RawRecord where
  key : Option MsgKey
  message : Option MessageObj
  messageTimestamp : Option Int

inductive Role where
  | user
  | model
  deriving DecidableEq

/-- One part of a Gemini turn: `{'text': t}` or inline audio bytes
(modelled by their length). -/
inductive MsgPart where
  | text (t : String)
  | audioData (len : Nat)
  deriving DecidableEq

/-- One turn sent to Gemini: `{'role': role, 'parts': parts}`. -/
structure Turn where
  role : Role
  parts : List MsgPart
  deriving DecidableEq

/-- Lines 45-63, body of `formatar_historico_para_gemini` for one record:
unwrap one ephemeral level, extract text, drop the record if empty, map
`key.fromMe` truthiness to the role. -/
def formatRecord (msg : RawRecord) : Option Turn :=
  let messageObj := unwrapEphemeral (msg.message.getD emptyMessageObj)
  let texto := extractTextRaw messageObj
  if texto = "" then none
  else some ⟨if (msg.key.map MsgKey.fromMe).getD false then .model else .user, [.text texto]⟩

/-- Lines 42-64: `formatar_historico_para_gemini`. -/
def formatar_historico_para_gemini (mensagens_api : List RawRecord) : List Turn :=
  mensagens_api.filterMap formatRecord

/-- Outcome of one find-messages page request, as observed by the loop body
of `obter_historico_conversa` (lines 89-99): a parsed `messages` object with
an optional reported `pages` count and a `records` list, or an
`httpx.RequestError` (network error / timeout), or an `httpx.HTTPStatusError`
raised by `raise_for_status()` on a non-2xx response. -/
inductive PageResult where
  | ok (pages : Option Nat) (records : List RawRecord)
  | requestError
  | httpStatusError (code : Nat)

def PageResult.isOk : PageResult → Bool
  | .ok _ _ => true
  | _ => false

/-- How the fetch loop ended: caught-class network failure, or an uncaught
HTTP status exception. -/
inductive FetchErr where
  | net
  | http (code : Nat)
  deriving DecidableEq

/-- Result of running the pagination loop: the page numbers requested in
order, the records accumulated by `historico_completo.extend(...)`, and the
failure (if any) that terminated the loop early. -/
structure LoopOut where
  reqs : List Nat
  recs : List RawRecord
  err : Option FetchErr

/-- The `while pagina_atual <= total_paginas` loop of lines 80-101 for the
pages after the first, once `total_paginas` is fixed by the first page's
response: `remaining = total_paginas + 1 - pagina_atual` counts the loop
iterations still to run, so the loop terminates structurally. -/
def fetchPagesFrom (oracle : Nat → PageResult) : Nat → Nat → LoopOut
  | 0, _ => ⟨[], [], none⟩
  | remaining + 1, pagina_atual =>
    match oracle pagina_atual with
    | .ok _ rs =>
      let rest := fetchPagesFrom oracle remaining (pagina_atual + 1)
      ⟨pagina_atual :: rest.reqs, rs ++ rest.recs, rest.err⟩
    | .requestError => ⟨[pagina_atual], [], some .net⟩
    | .httpStatusError c => ⟨[pagina_atual], [], some (.http c)⟩

/-- The whole pagination loop (lines 73-101): request page 1, read
`total_paginas = messages_data.get("pages", 1)` from it (only there: later
pages' `pages` fields are never consulted), then run the loop for pages
2..total_paginas. -/
def fetchAllPages (oracle : Nat → PageResult) : LoopOut :=
  match oracle 1 with
  | .ok pagesOpt rs =>
    let total_paginas := pagesOpt.getD 1
    let rest := fetchPagesFrom oracle (total_paginas - 1) 2
    ⟨1 :: rest.reqs, rs ++ rest.recs, rest.err⟩
  | .requestError => ⟨[1], [], some .net⟩
  | .httpStatusError c => ⟨[1], [], some (.http c)⟩

/-- Line 104 sort key: `int(msg.get("messageTimestamp", 0))`. -/
def tsKey (msg : RawRecord) : Int :=
  msg.messageTimestamp.getD 0

/-- The comparison used by `sorted(..., key=...)`: non-decreasing timestamp. -/
def tsLE (a b : RawRecord) : Prop := tsKey a ≤ tsKey b

instance : DecidableRel tsLE := fun a b => inferInstanceAs (Decidable (tsKey a ≤ tsKey b))

instance : IsTotal RawRecord tsLE := ⟨fun a b => le_total (tsKey a) (tsKey b)⟩

instance : IsTrans RawRecord tsLE := ⟨fun _ _ _ hab hbc => le_trans hab hbc⟩

/-- Line 104: `sorted(historico_completo, key=lambda msg: int(msg.get("messageTimestamp", 0)))`.
Python's `sorted` is a stable comparison sort; insertion sort is one. -/
def sortRecords (l : List RawRecord) : List RawRecord :=
  List.insertionSort tsLE l

/-- The `total_paginas` value in force after the first page's response. -/
def pageTotal (oracle : Nat → PageResult) : Nat :=
  match oracle 1 with
  | .ok pagesOpt _ => pagesOpt.getD 1
  | _ => 1

/-- Lines 67-111: `obter_historico_conversa`, as a function of the page
oracle. Returns the value produced (`Except.error c` modelling an uncaught
`httpx.HTTPStatusError` propagating to the caller) together with the list
of page requests issued. The `except httpx.RequestError` handler (lines
109-111) returns the literal `[]`, discarding `historico_completo`;
`HTTPStatusError` is not a subclass of `RequestError` and is not caught. -/
def obter_historico_conversa (oracle : Nat → PageResult) :
    Except Nat (List Turn) × List Nat :=
  let out := fetchAllPages oracle
  match out.err with
  | some .net => (.ok [], out.reqs)
  | some (.http c) => (.error c, out.reqs)
  | none => (.ok (formatar_historico_para_gemini (sortRecords out.recs)), out.reqs)

/-- Python's builtin `max` on two numbers (written explicitly so that it
evaluates by kernel reduction; equal to `Max.max`, see `pyMax_eq_max`). -/
def pyMax (a b : ℚ) : ℚ := if a ≤ b then b else a

/-- Python's builtin `min` on two numbers. -/
def pyMin (a b : ℚ) : ℚ := if a ≤ b then a else b

/-- Line 261: `tempo_de_espera = min(max(len(texto_resposta) * 0.06, 2), 8)`,
with the arithmetic over ℚ (0.06 = 6/100). -/
def tempo_de_espera (n : Nat) : ℚ :=
  pyMin (pyMax ((n : ℚ) * (6 / 100)) 2) 8

/-- Modelled from the spec: `clamp(x, lower_bound, upper_bound)` as used in
the pacing contract, to be compared with `tempo_de_espera`. -/
def clampSpec (lo hi x : ℚ) : ℚ :=
  min (max x lo) hi

/-- Outcome of the media-decrypt POST (lines 216-219): a JSON body whose
`base64` key may be absent, an `httpx.RequestError`, or an
`httpx.HTTPStatusError` from `raise_for_status()` on a non-2xx response. -/
inductive MediaFetchResult where
  | ok (base64Field : Option String)
  | requestError
  | httpStatusError (code : Nat)

/-- The environment of one audio-processing section: the media fetch
outcome, whether `base64.b64decode` succeeds, the decoded byte count,
whether the ffmpeg subprocess exits 0, whether a failing ffmpeg run leaves a
partial output file behind, and the byte count read back from the mp3. -/
structure MediaEnv where
  fetch : MediaFetchResult
  decodeOk : Bool
  decodedLen : Nat
  ffmpegOk : Bool
  ffmpegLeavesMp3 : Bool
  mp3Len : Nat

/-- Existence on disk of the two fixed-name temporary files
`audio_recebido.ogg` and `audio_convertido.mp3`. -/
structure FileState where
  ogg : Bool
  mp3 : Bool
  deriving DecidableEq

/-- The exception class that escaped the audio section's `try` body. -/
inductive ExnKind where
  | requestErr
  | httpStatus (code : Nat)
  | valueErr
  | processErr
  deriving DecidableEq

/-- How the audio section ended: `mp3_audio_data` read back (possibly empty),
or an exception propagating past the `finally`. -/
inductive AudioOut where
  | data (len : Nat)
  | exn (e : ExnKind)
  deriving DecidableEq

/-- Lines 238-239: `if os.path.exists(p): os.remove(p)` for each temp file. -/
def cleanupTemp (fs : FileState) : FileState :=
  let fs1 := if fs.ogg then { fs with ogg := false } else fs
  if fs1.mp3 then { fs1 with mp3 := false } else fs1

/-- Lines 210-236: the body of the audio section's `try`. Returns the
outcome, the file state when control leaves the body, and the names of the
temp files created so far (in creation order). -/
def audioTryBody (m : MediaEnv) (fs0 : FileState) :
    AudioOut × FileState × List String :=
  match m.fetch with
    | .requestError => (.exn .requestErr, fs0, [])
    | .httpStatusError c => (.exn (.httpStatus c), fs0, [])
    | .ok none => (.exn .valueErr, fs0, [])
    | .ok (some _) =>
      if ¬ m.decodeOk then (.exn .valueErr, fs0, [])
      else
        let fs1 := { fs0 with ogg := true }
        let created1 := ["audio_recebido.ogg"]
        if m.decodedLen = 0 then (.exn .valueErr, fs1, created1)
        else if m.ffmpegOk then
          let fs2 := { fs1 with mp3 := true }
          (.data m.mp3Len, fs2, created1 ++ ["audio_convertido.mp3"])
        else
          (.exn .processErr, { fs1 with mp3 := m.ffmpegLeavesMp3 },
            created1 ++ if m.ffmpegLeavesMp3 then ["audio_convertido.mp3"] else [])

/-- Lines 209-239: the audio `try ... finally` section: run the body, then
the `finally` removal of both temp files on every exit path. -/
def audioSection (m : MediaEnv) (fs0 : FileState) :
    AudioOut × FileState × List String :=
  let step := audioTryBody m fs0
  (step.1, cleanupTemp step.2.1, step.2.2)

/-- Outcome of one outbound send-text call as seen by
`enviar_resposta_whatsapp` (lines 140-152). -/
inductive SendOutcome where
  | ok
  | requestError
  | httpStatusError (code : Nat)
  deriving DecidableEq

/-- Lines 126-152: `enviar_resposta_whatsapp`. A network error or timeout
(`httpx.RequestError`) is caught and logged; `raise_for_status()` on a
non-2xx response raises `httpx.HTTPStatusError`, which the handler does not
catch, so it propagates to the caller (`some code`). -/
def enviar_resposta_whatsapp (o : SendOutcome) : Option Nat :=
  match o with
  | .httpStatusError c => some c
  | _ => none

/-- One outbound call issued while handling a request, in issue order. -/
inductive Call where
  | historyFetch (page : Nat)
  | mediaFetch
  | generate (content : List Turn)
  | presence (s : String)
  | sleepDelay (q : ℚ)
  | sendText (t : String)
  deriving DecidableEq

/-- What `webhook_receiver` reports to its caller: a JSON status body, or
an `HTTPException` with a status code. -/
inductive HandlerResult where
  | ok (status : String)
  | httpError (code : Nat)
  deriving DecidableEq

/-- Everything observable about one handler run. -/
structure RunOut where
  result : HandlerResult
  calls : List Call
  fs : FileState
  created : List String
  deriving DecidableEq

/-- The `data` dict of a messages-upsert event. -/
structure EventData where
  key : Option MsgKey
  message : Option MessageObj

/-- One inbound webhook payload. -/
structure Event where
  event : Option String
  data : Option EventData

/-- The external world of one request: the configured `TARGET_JID`, the
history-page oracle, the audio environment, the generation outcome
(`Except.error` modelling an exception from `model.generate_content` or
`.text`), and the outcome of the first outbound send-text call of the run
(the only send whose outcome the control flow can observe: a second send is
always the swallowed best-effort apology of lines 269-271). -/
structure Env where
  targetJid : String
  pages : Nat → PageResult
  media : MediaEnv
  gen : Except Unit String
  send : SendOutcome

/-- Lines 267-272: the outer `except Exception` block: best-effort apology
(its own failure swallowed by `except: pass`), then
`raise HTTPException(status_code=500, ...)`. -/
def outerExcept (calls : List Call) (fs : FileState) (created : List String) : RunOut :=
  ⟨.httpError 500,
    calls ++ [.sendText "Ocorreu um erro interno e não pude processar sua mensagem."],
    fs, created⟩

/-- Lines 252-265: append the current message as the final user turn, invoke
generation, pace (presence composing, sleep, presence paused) and send the
reply. Presence sends never raise (lines 119-124 catch `RequestError`, and
no `raise_for_status` is called there). A non-2xx on the final send
propagates into the outer `except`. -/
def proceedReply (env : Env) (historico : List Turn) (partes : List MsgPart)
    (calls : List Call) (fs : FileState) (created : List String) : RunOut :=
  let conteudo := historico ++ [⟨.user, partes⟩]
  let calls1 := calls ++ [.generate conteudo]
  match env.gen with
  | .error _ => outerExcept calls1 fs created
  | .ok texto =>
    let espera := tempo_de_espera texto.length
    let calls2 := calls1 ++
      [.presence "composing", .sleepDelay espera, .presence "paused", .sendText texto]
    match enviar_resposta_whatsapp env.send with
    | some _ => outerExcept calls2 fs created
    | none => ⟨.ok "recebido_e_processado", calls2, fs, created⟩

/-- Lines 169-274: `webhook_receiver`. Guards in source order: event kind
(line 173), missing/falsy data or `fromMe` (line 175), missing/empty or
non-target sender JID (lines 176-177); then one ephemeral unwrap (line 180);
then, inside the `try`, the history fetch (line 186) happens before the
content branch (lines 192-250). -/
def webhook_receiver (ev : Event) (env : Env) (fs0 : FileState) : RunOut :=
  if ev.event ≠ some "messages.upsert" then ⟨.ok "evento_ignorado", [], fs0, []⟩
  else
    match ev.data with
    | none => ⟨.ok "ignorado", [], fs0, []⟩
    | some d =>
      if (d.key.map MsgKey.fromMe).getD false then ⟨.ok "ignorado", [], fs0, []⟩
      else
        match d.key.bind MsgKey.remoteJid with
        | none => ⟨.ok "ignorado", [], fs0, []⟩
        | some remetente_jid =>
          if remetente_jid = "" ∨ remetente_jid ≠ env.targetJid then
            ⟨.ok "ignorado", [], fs0, []⟩
          else
            let messageObj := unwrapEphemeral (d.message.getD emptyMessageObj)
            let hist := obter_historico_conversa env.pages
            let calls0 := hist.2.map Call.historyFetch
            match hist.1 with
            | .error _ => outerExcept calls0 fs0 []
            | .ok historico =>
              match classify messageObj with
              | .text t => proceedReply env historico [.text t] calls0 fs0 []
              | .noContent => ⟨.ok "ignorado_sem_conteudo_util", calls0, fs0, []⟩
              | .unsupported => ⟨.ok "ignorado_sem_conteudo_util", calls0, fs0, []⟩
              | .audioMsg =>
                if (d.key.bind MsgKey.id).getD "" = "" then
                  ⟨.ok "erro_sem_id", calls0, fs0, []⟩
                else
                  let a := audioSection env.media fs0
                  let calls1 := calls0 ++ [.mediaFetch]
                  match a.1 with
                  | .exn _ => outerExcept calls1 a.2.1 a.2.2
                  | .data 0 =>
                    let calls2 := calls1 ++
                      [.sendText "Desculpe, não consegui processar seu áudio desta vez."]
                    match enviar_resposta_whatsapp env.send with
                    | some _ => outerExcept calls2 a.2.1 a.2.2
                    | none => ⟨.ok "erro_processamento_audio", calls2, a.2.1, a.2.2⟩
                  | .data (n + 1) =>
                    proceedReply env historico
                      [.text "Por favor, ouça este áudio e responda de acordo:",
                        .audioData (n + 1)]
                      calls1 a.2.1 a.2.2

/-! Concrete sample inputs for witnesses and counterexamples. -/

/-- A plain-conversation history record with timestamp 5. -/
def recC5 : RawRecord :=
  ⟨some ⟨some "u@s.whatsapp.net", false, none⟩, some (.mk none none (some "oi") false), some 5⟩

/-- A single successful page reporting 1 page. -/
def oracleC5 : Nat → PageResult := fun _ => .ok (some 1) [recC5]

/-- A plain extended-text envelope, not ephemeral-wrapped. -/
def msgC6 : MessageObj := .mk none (some (some "olá")) none false

/-- An audio-free media environment placeholder for runs that never reach
the audio section. -/
def mediaIdle : MediaEnv := ⟨.ok none, true, 0, true, false, 0⟩

/-- A text message-upsert event from a sender other than the target. -/
def evC8 : Event :=
  ⟨some "messages.upsert",
    some ⟨some ⟨some "other@s.whatsapp.net", false, none⟩, some (.mk none none (some "oi") false)⟩⟩

def envC8 : Env := ⟨"target@s.whatsapp.net", fun _ => .ok (some 1) [], mediaIdle, .ok "r", .ok⟩

/-- A text message-upsert event flagged `fromMe`. -/
def evC9 : Event :=
  ⟨some "messages.upsert",
    some ⟨some ⟨some "target@s.whatsapp.net", true, none⟩, some (.mk none none (some "oi") false)⟩⟩

def envC9 : Env := ⟨"target@s.whatsapp.net", fun _ => .ok (some 1) [], mediaIdle, .ok "r", .ok⟩

/-- A conversation record formatting to a nonempty turn, timestamp 5. -/
def recC2 : RawRecord :=
  ⟨some ⟨some "u@s.whatsapp.net", false, none⟩, some (.mk none none (some "oi") false), some 5⟩

/-- Page 1 succeeds reporting 2 pages and carrying one record, page 2 fails
with a network error. -/
def oracleC2net : Nat → PageResult :=
  fun n => if n = 1 then .ok (some 2) [recC2] else .requestError

/-- Page 1 answers with a non-2xx status. -/
def oracleC2http : Nat → PageResult := fun _ => .httpStatusError 500

/-- Pages 1 and 2 succeed out of a reported 3, page 3 fails with a network
error. -/
def oracleC2w : Nat → PageResult :=
  fun n => if n = 1 then .ok (some 3) [] else if n = 2 then .ok none [] else .requestError

/-- All pages succeed; page 1 reports 3 pages. -/
def oracleC10 : Nat → PageResult :=
  fun n => if n = 1 then .ok (some 3) [] else .ok none []

/-- A conversation record for the C3 runs. -/
def recC3 : RawRecord :=
  ⟨some ⟨some "t@s.whatsapp.net", false, none⟩, some (.mk none none (some "oi") false), some 5⟩

/-- A media environment whose decrypt call answers 403. -/
def mediaC3 : MediaEnv := ⟨.httpStatusError 403, true, 10, true, false, 10⟩

def envC3 : Env := ⟨"t@s.whatsapp.net", fun _ => .ok (some 1) [recC3], mediaC3, .ok "resp", .ok⟩

/-- An audio message-upsert event from the target sender. -/
def evC3 : Event :=
  ⟨some "messages.upsert",
    some ⟨some ⟨some "t@s.whatsapp.net", false, some "mid"⟩, some (.mk none none none true)⟩⟩

/-- A text message-upsert event from the target sender, for the C7 runs. -/
def evC7 : Event :=
  ⟨some "messages.upsert",
    some ⟨some ⟨some "t@s.whatsapp.net", false, some "mid"⟩, some (.mk none none (some "oi") false)⟩⟩

/-- Generation succeeds but the final send answers a non-2xx status. -/
def envC7http : Env :=
  ⟨"t@s.whatsapp.net", fun _ => .ok (some 1) [recC3], mediaIdle, .ok "Olá!", .httpStatusError 500⟩

/-- Generation succeeds but the final send fails with a network error. -/
def envC7net : Env :=
  ⟨"t@s.whatsapp.net", fun _ => .ok (some 1) [recC3], mediaIdle, .ok "Olá!", .requestError⟩

deriving instance DecidableEq for Except

/-! Helper lemmas. -/

theorem pyMax_eq_max (a b : ℚ) : pyMax a b = max a b := (max_def a b).symm

theorem pyMin_eq_min (a b : ℚ) : pyMin a b = min a b := (min_def a b).symm

/-- The conditional removals of the `finally` block leave neither temp file
in existence. -/
theorem cleanupTemp_clears (fs : FileState) : cleanupTemp fs = ⟨false, false⟩ := by
  rcases fs with ⟨o, m⟩
  cases o <;> cases m <;> rfl

/-! Theorems for the claims. -/

/-- Claim C1: for every audio-bearing request, once the audio-processing
section has completed by any exit path (successful transcoding, fetch or
decode failure, transcoder failure, or any modelled exception), neither of
the two temporary audio files (`audio_recebido.ogg`, `audio_convertido.mp3`)
exists on disk for that request: the `finally` block of lines 237-239 runs
on every path out of the `try` body. -/
theorem claim1_audio_temp_cleanup (m : MediaEnv) (fs0 : FileState) :
    ((audioSection m fs0).2.1).ogg = false ∧ ((audioSection m fs0).2.1).mp3 = false := by
  have h : (audioSection m fs0).2.1 = cleanupTemp (audioTryBody m fs0).2.1 := rfl
  rw [h, cleanupTemp_clears]
  exact ⟨rfl, rfl⟩

/-- Claim C4: the pacing delay equals clamp(length × 0.06 s, 2 s, 8 s): it
coincides with the spec-side clamp, is monotonically non-decreasing in the
reply character length, a 10-character reply paces at 2 s, a 500-character
reply paces at 8 s, and the delay always lies in [2, 8]. -/
theorem claim4_pacing_clamp :
    (∀ n : Nat, tempo_de_espera n = clampSpec 2 8 ((n : ℚ) * (6 / 100))) ∧
    (∀ n m : Nat, n ≤ m → tempo_de_espera n ≤ tempo_de_espera m) ∧
    tempo_de_espera 10 = 2 ∧ tempo_de_espera 500 = 8 ∧
    (∀ n : Nat, 2 ≤ tempo_de_espera n ∧ tempo_de_espera n ≤ 8) := by
  refine ⟨?_, ?_, ?_, ?_, ?_⟩
  · intro n
    rw [tempo_de_espera, clampSpec, pyMin_eq_min, pyMax_eq_max]
  · intro n m h
    rw [tempo_de_espera, tempo_de_espera, pyMin_eq_min, pyMin_eq_min,
      pyMax_eq_max, pyMax_eq_max]
    have hc : (n : ℚ) ≤ (m : ℚ) := by exact_mod_cast h
    exact min_le_min
      (max_le_max (mul_le_mul_of_nonneg_right hc (by norm_num)) le_rfl) le_rfl
  · norm_num [tempo_de_espera, pyMin, pyMax]
  · norm_num [tempo_de_espera, pyMin, pyMax]
  · intro n
    rw [tempo_de_espera, pyMin_eq_min, pyMax_eq_max]
    exact ⟨le_min (le_max_right _ _) (by norm_num), min_le_right _ _⟩

/-- Witness for C4 at concrete lengths: 3 ≤ 7 and the delays compare. -/
theorem claim4_pacing_witness : 3 ≤ 7 ∧ tempo_de_espera 3 ≤ tempo_de_espera 7 :=
  ⟨by norm_num, claim4_pacing_clamp.2.1 3 7 (by norm_num)⟩

/-- Claim C5: for every multiset of accumulated history records, in whatever
order the pages and records arrived, the record list is sorted non-decreasing
by message timestamp (as a permutation of the input) before formatting, and
on every fully successful run the assembler returns exactly the formatting
of that sorted list. -/
theorem claim5_history_sorted :
    (∀ l : List RawRecord,
      (sortRecords l).Pairwise (fun a b => tsKey a ≤ tsKey b) ∧ (sortRecords l).Perm l) ∧
    (∀ oracle : Nat → PageResult, (fetchAllPages oracle).err = none →
      (obter_historico_conversa oracle).1 =
        .ok (formatar_historico_para_gemini (sortRecords (fetchAllPages oracle).recs))) := by
  constructor
  · intro l
    exact ⟨List.sorted_insertionSort tsLE l, List.perm_insertionSort tsLE l⟩
  · intro oracle h
    simp only [obter_historico_conversa, h]

/-- Witness for C5: a concrete fully successful run, with the hypothesis
`err = none` discharged by `rfl`. -/
theorem claim5_history_sorted_witness :
    (fetchAllPages oracleC5).err = none ∧
    (obter_historico_conversa oracleC5).1 =
      .ok (formatar_historico_para_gemini (sortRecords (fetchAllPages oracleC5).recs)) :=
  ⟨rfl, claim5_history_sorted.2 oracleC5 rfl⟩

/-- Any two message envelopes with the same unwrapping format to the same
optional turn. -/
theorem formatRecord_congr (k : Option MsgKey) (ts : Option Int) {a b : MessageObj}
    (h : unwrapEphemeral a = unwrapEphemeral b) :
    formatRecord ⟨k, some a, ts⟩ = formatRecord ⟨k, some b, ts⟩ := by
  unfold formatRecord
  simp only [Option.getD_some]
  rw [h]

/-- Claim C6: for every inbound envelope wrapped in exactly one
`ephemeralMessage` layer (so the contained envelope is not itself a
wrapper), extraction produces the same classification and payload as
extracting the contained envelope directly — both for the live-event
extractor and for the history-record formatter. -/
theorem claim6_ephemeral_unwrap (m : MessageObj) (h : m.ephemeralMessage = none) :
    extractLive (wrapEphemeral m) = extractLive m ∧
    (∀ (k : Option MsgKey) (ts : Option Int),
      formatRecord ⟨k, some (wrapEphemeral m), ts⟩ = formatRecord ⟨k, some m, ts⟩) := by
  have hm : unwrapEphemeral m = m := by
    unfold unwrapEphemeral
    rw [h]
  have hw : unwrapEphemeral (wrapEphemeral m) = m := rfl
  constructor
  · unfold extractLive
    rw [hw, hm]
  · intro k ts
    exact formatRecord_congr k ts (hw.trans hm.symm)

/-- Witness for C6 at a concrete plain-text envelope. -/
theorem claim6_ephemeral_witness :
    msgC6.ephemeralMessage = none ∧
    extractLive (wrapEphemeral msgC6) = extractLive msgC6 ∧
    formatRecord ⟨none, some (wrapEphemeral msgC6), some 7⟩ =
      formatRecord ⟨none, some msgC6, some 7⟩ :=
  ⟨rfl, (claim6_ephemeral_unwrap msgC6 rfl).1, (claim6_ephemeral_unwrap msgC6 rfl).2 none (some 7)⟩

/-- Claim C8: for every inbound message-upsert event whose sender JID is
absent or differs from the configured target conversation identifier, the
handler returns the "ignorado" status, issues zero outbound calls, creates
no files and leaves the file state unchanged. The model is a pure function
of the event and the environment and the conclusion pins the entire
observable output, so repeated delivery of the same event yields the same
result with no effects (idempotence). -/
theorem claim8_ignored_nontarget (ev : Event) (env : Env) (fs0 : FileState)
    (hev : ev.event = some "messages.upsert")
    (hjid : ∀ j, (ev.data.bind EventData.key).bind MsgKey.remoteJid = some j →
      j ≠ env.targetJid) :
    webhook_receiver ev env fs0 = ⟨.ok "ignorado", [], fs0, []⟩ := by
  rcases hdd : ev.data with _ | d
  · simp [webhook_receiver, hev, hdd]
  · cases hfm : (d.key.map MsgKey.fromMe).getD false with
    | true => simp [webhook_receiver, hev, hdd, hfm]
    | false =>
      rcases hj : d.key.bind MsgKey.remoteJid with _ | j
      · simp [webhook_receiver, hev, hdd, hfm, hj]
      · have hne : j ≠ env.targetJid := hjid j (by rw [hdd]; exact hj)
        simp [webhook_receiver, hev, hdd, hfm, hj, hne]

/-- Witness for C8: a concrete event whose sender differs from the target. -/
theorem claim8_witness :
    evC8.event = some "messages.upsert" ∧
    (evC8.data.bind EventData.key).bind MsgKey.remoteJid = some "other@s.whatsapp.net" ∧
    "other@s.whatsapp.net" ≠ envC8.targetJid ∧
    webhook_receiver evC8 envC8 ⟨false, false⟩ = ⟨.ok "ignorado", [], ⟨false, false⟩, []⟩ :=
  ⟨rfl, rfl, by decide,
    claim8_ignored_nontarget evC8 envC8 ⟨false, false⟩ rfl (fun j hj => by
      simp only [evC8] at hj
      rw [show ((some (⟨some ⟨some "other@s.whatsapp.net", false, none⟩,
        some (.mk none none (some "oi") false)⟩ : EventData)).bind EventData.key).bind
          MsgKey.remoteJid = some "other@s.whatsapp.net" from rfl] at hj
      cases hj
      decide)⟩

/-- Claim C9: for every inbound message-upsert event whose `key.fromMe` flag
is true, the handler returns the "ignorado" status before any extraction,
history fetch, generation or outbound call: the trace of outbound calls is
empty and the file state is untouched, so the bot never replies to its own
outgoing messages. -/
theorem claim9_ignored_fromme (ev : Event) (env : Env) (fs0 : FileState)
    (d : EventData) (k : MsgKey)
    (hev : ev.event = some "messages.upsert")
    (hdata : ev.data = some d) (hkey : d.key = some k) (hfm : k.fromMe = true) :
    webhook_receiver ev env fs0 = ⟨.ok "ignorado", [], fs0, []⟩ := by
  simp [webhook_receiver, hev, hdata, hkey, hfm]

/-- Witness for C9: a concrete event flagged `fromMe`. -/
theorem claim9_witness :
    evC9.event = some "messages.upsert" ∧
    (∃ d, evC9.data = some d ∧ ∃ k, d.key = some k ∧ k.fromMe = true) ∧
    webhook_receiver evC9 envC9 ⟨false, false⟩ = ⟨.ok "ignorado", [], ⟨false, false⟩, []⟩ :=
  ⟨rfl, ⟨_, rfl, _, rfl, rfl⟩,
    claim9_ignored_fromme evC9 envC9 ⟨false, false⟩ _ _ rfl rfl rfl rfl⟩

/-- If every page in the window `[cur, cur + rem)` succeeds, the loop
requests exactly those pages and ends without error. -/
theorem fetchPagesFrom_ok (oracle : Nat → PageResult) :
    ∀ rem cur : Nat, (∀ i, cur ≤ i → i < cur + rem → (oracle i).isOk = true) →
      (fetchPagesFrom oracle rem cur).reqs = List.range' cur rem ∧
      (fetchPagesFrom oracle rem cur).err = none := by
  intro rem
  induction rem with
  | zero => intro cur _; exact ⟨rfl, rfl⟩
  | succ r ih =>
    intro cur h
    have hcur : (oracle cur).isOk = true := h cur le_rfl (by omega)
    cases hoc : oracle cur with
    | ok p rs =>
      have ihr := ih (cur + 1) (fun i h1 h2 => h i (by omega) (by omega))
      simp [fetchPagesFrom, hoc, ihr.1, ihr.2, List.range']
    | requestError => rw [hoc] at hcur; simp [PageResult.isOk] at hcur
    | httpStatusError c => rw [hoc] at hcur; simp [PageResult.isOk] at hcur

/-- If the pages before `k` succeed and page `k` (inside the window) fails,
the loop ends with the failure class of page `k`. -/
theorem fetchPagesFrom_fail (oracle : Nat → PageResult) :
    ∀ rem cur k : Nat, cur ≤ k → k < cur + rem →
      (∀ i, cur ≤ i → i < k → (oracle i).isOk = true) →
      ((oracle k = .requestError → (fetchPagesFrom oracle rem cur).err = some .net) ∧
       (∀ c, oracle k = .httpStatusError c →
         (fetchPagesFrom oracle rem cur).err = some (.http c))) := by
  intro rem
  induction rem with
  | zero => intro cur k h1 h2 _; exact absurd h2 (by omega)
  | succ r ih =>
    intro cur k h1 h2 hprev
    rcases Nat.eq_or_lt_of_le h1 with heq | hlt
    · subst heq
      constructor
      · intro hreq
        simp [fetchPagesFrom, hreq]
      · intro c hhttp
        simp [fetchPagesFrom, hhttp]
    · have hcur : (oracle cur).isOk = true := hprev cur le_rfl hlt
      cases hoc : oracle cur with
      | ok p rs =>
        have ihr := ih (cur + 1) k hlt (by omega) (fun i ha hb => hprev i (by omega) hb)
        constructor
        · intro hreq
          simp [fetchPagesFrom, hoc, ihr.1 hreq]
        · intro c hhttp
          simp [fetchPagesFrom, hoc, ihr.2 c hhttp]
      | requestError => rw [hoc] at hcur; simp [PageResult.isOk] at hcur
      | httpStatusError c => rw [hoc] at hcur; simp [PageResult.isOk] at hcur

/-- Claim C2 counterexample: with page 1 succeeding (its record formats to a
nonempty history) and page 2 failing with a network error, the assembler
returns the empty history — not the history accumulated from the pages
fetched so far; and with page 1 answering a non-2xx status, the failure
propagates out of the assembler as an exception instead of degrading. -/
theorem claim2_counterexample :
    ((obter_historico_conversa oracleC2net).1 = .ok [] ∧
      formatar_historico_para_gemini (sortRecords [recC2]) = [⟨.user, [.text "oi"]⟩]) ∧
    (obter_historico_conversa oracleC2http).1 = .error 500 :=
  ⟨⟨by decide, by decide⟩, by decide⟩

/-- Claim C2 (amended): a page fetch failing with a network error or timeout
(`httpx.RequestError`), at page 1 or at any later page after successful
earlier pages, makes the assembler return the EMPTY history — discarding
pages already accumulated — without propagating the failure; a non-2xx
response (`httpx.HTTPStatusError`, not caught by the `except
httpx.RequestError` handler) propagates out of the assembler; only when
every requested page succeeds does the assembler return the accumulated
(sorted, formatted) history. -/
theorem claim2_amended_failure_semantics (oracle : Nat → PageResult) :
    (oracle 1 = .requestError → (obter_historico_conversa oracle).1 = .ok []) ∧
    (∀ c, oracle 1 = .httpStatusError c → (obter_historico_conversa oracle).1 = .error c) ∧
    (∀ p rs k, oracle 1 = .ok p rs → 2 ≤ k → k ≤ p.getD 1 →
      (∀ i, 2 ≤ i → i < k → (oracle i).isOk = true) →
      ((oracle k = .requestError → (obter_historico_conversa oracle).1 = .ok []) ∧
       (∀ c, oracle k = .httpStatusError c → (obter_historico_conversa oracle).1 = .error c))) ∧
    ((∀ i, 1 ≤ i → i ≤ max (pageTotal oracle) 1 → (oracle i).isOk = true) →
      (obter_historico_conversa oracle).1 =
        .ok (formatar_historico_para_gemini (sortRecords (fetchAllPages oracle).recs))) := by
  refine ⟨?_, ?_, ?_, ?_⟩
  · intro h
    simp [obter_historico_conversa, fetchAllPages, h]
  · intro c h
    simp [obter_historico_conversa, fetchAllPages, h]
  · intro p rs k h1 hk2 hkt hprev
    have hfail := fetchPagesFrom_fail oracle (p.getD 1 - 1) 2 k hk2 (by omega) hprev
    constructor
    · intro hreq
      have herr : (fetchAllPages oracle).err = some .net := by
        simp [fetchAllPages, h1, hfail.1 hreq]
      simp [obter_historico_conversa, herr]
    · intro c hhttp
      have herr : (fetchAllPages oracle).err = some (.http c) := by
        simp [fetchAllPages, h1, hfail.2 c hhttp]
      simp [obter_historico_conversa, herr]
  · intro hall
    have h1ok : (oracle 1).isOk = true := hall 1 le_rfl (le_max_right _ _)
    cases h1 : oracle 1 with
    | ok p rs =>
      have hpt : pageTotal oracle = p.getD 1 := by simp [pageTotal, h1]
      have hrest := fetchPagesFrom_ok oracle (p.getD 1 - 1) 2 (fun i hi1 hi2 => by
        refine hall i (by omega) ?_
        rw [hpt]
        exact le_trans (by omega) (le_max_left _ _))
      have herr : (fetchAllPages oracle).err = none := by
        simp [fetchAllPages, h1, hrest.2]
      simp [obter_historico_conversa, herr]
    | requestError => rw [h1] at h1ok; simp [PageResult.isOk] at h1ok
    | httpStatusError c => rw [h1] at h1ok; simp [PageResult.isOk] at h1ok

/-- Witness for the amended C2: pages 1-2 succeed, page 3 network-fails,
and the assembler returns the empty history without propagating. -/
theorem claim2_amended_witness :
    oracleC2w 1 = .ok (some 3) [] ∧ oracleC2w 3 = .requestError ∧
    (obter_historico_conversa oracleC2w).1 = .ok [] :=
  ⟨rfl, rfl,
    ((claim2_amended_failure_semantics oracleC2w).2.2.1 (some 3) [] 3 rfl (by decide)
      (by decide) (fun i h1 h2 => by
        have hi : i = 2 := by omega
        subst hi
        rfl)).1 rfl⟩

/-- Claim C10: the total-page count is taken from the first page's response
alone (the request list is a function of it), a missing reported count
defaults to 1 so exactly one page is fetched, and when every requested page
succeeds the loop performs exactly max(reported, 1) page requests — the
pages 1, 2, ..., max(reported, 1) in order — and terminates. -/
theorem claim10_pagination_count (oracle : Nat → PageResult) (p : Option Nat)
    (rs : List RawRecord) (h1 : oracle 1 = .ok p rs)
    (hok : ∀ i, 2 ≤ i → i ≤ p.getD 1 → (oracle i).isOk = true) :
    (fetchAllPages oracle).reqs = List.range' 1 (max (p.getD 1) 1) ∧
    (fetchAllPages oracle).reqs.length = max (p.getD 1) 1 ∧
    (p = none → (fetchAllPages oracle).reqs = [1]) := by
  have hrest := fetchPagesFrom_ok oracle (p.getD 1 - 1) 2 (fun i hi1 hi2 => hok i hi1 (by omega))
  have hreqs : (fetchAllPages oracle).reqs = 1 :: List.range' 2 (p.getD 1 - 1) := by
    simp [fetchAllPages, h1, hrest.1]
  have hcons : (1 : Nat) :: List.range' 2 (p.getD 1 - 1) = List.range' 1 (max (p.getD 1) 1) := by
    rcases Nat.eq_zero_or_pos (p.getD 1) with h0 | hpos
    · rw [h0]; rfl
    · have hm : max (p.getD 1) 1 = p.getD 1 := by omega
      rw [hm]
      cases hp : p.getD 1 with
      | zero => omega
      | succ t => simp [List.range']
  refine ⟨hreqs.trans hcons, ?_, ?_⟩
  · rw [hreqs.trans hcons]
    simp
  · intro hpn
    subst hpn
    rw [hreqs]
    rfl

/-- Witness for C10: a reported count of 3 with all pages succeeding gives
exactly the three requests 1, 2, 3. -/
theorem claim10_witness :
    oracleC10 1 = .ok (some 3) [] ∧
    (fetchAllPages oracleC10).reqs = [1, 2, 3] ∧
    (fetchAllPages oracleC10).reqs.length = 3 := by
  have hok : ∀ i, 2 ≤ i → i ≤ (some 3 : Option Nat).getD 1 → (oracleC10 i).isOk = true := by
    intro i hi1 hi2
    have hne : i ≠ 1 := by omega
    simp [oracleC10, hne, PageResult.isOk]
  have h := claim10_pagination_count oracleC10 (some 3) [] rfl hok
  have hmax : ((some 3 : Option Nat).getD 1) ⊔ 1 = 3 := by simp
  refine ⟨rfl, ?_, ?_⟩
  · rw [h.1, hmax]
    rfl
  · rw [h.2.1, hmax]

/-- Claim C3 counterexample: with the media-decrypt call answering 403 on a
concrete audio event, the handler's trace contains the history-fetch call —
HistoryAssembler was invoked (before the audio section), contradicting the
claim that it is not — and the full trace is history fetch, media fetch,
then the single fallback apology send. -/
theorem claim3_counterexample :
    Call.historyFetch 1 ∈ (webhook_receiver evC3 envC3 ⟨false, false⟩).calls ∧
    (webhook_receiver evC3 envC3 ⟨false, false⟩).calls =
      [.historyFetch 1, .mediaFetch,
        .sendText "Ocorreu um erro interno e não pude processar sua mensagem."] :=
  ⟨by decide, by decide⟩

/-- Claim C3 (amended): for every audio-bearing event whose media
acquisition fails with a non-2xx response or a missing decoded payload,
exactly one user-facing fallback apology send is attempted (the generic
internal-error apology issued by the outer exception handler), generation is
never invoked, no temporary files are created and none remain, and the
pipeline aborts reporting a 500 error — but the history fetch has already
been performed before the audio section, so HistoryAssembler IS invoked. -/
theorem claim3_amended_media_failure (ev : Event) (env : Env) (fs0 : FileState)
    (d : EventData) (historico : List Turn)
    (hev : ev.event = some "messages.upsert")
    (hdata : ev.data = some d)
    (hfrom : (d.key.map MsgKey.fromMe).getD false = false)
    (hjid : d.key.bind MsgKey.remoteJid = some env.targetJid)
    (htgt : env.targetJid ≠ "")
    (hhist : (obter_historico_conversa env.pages).1 = .ok historico)
    (haud : classify (unwrapEphemeral (d.message.getD emptyMessageObj)) = .audioMsg)
    (hid : (d.key.bind MsgKey.id).getD "" ≠ "")
    (hfetch : (∃ c, env.media.fetch = .httpStatusError c) ∨ env.media.fetch = .ok none) :
    (webhook_receiver ev env fs0).result = .httpError 500 ∧
    (webhook_receiver ev env fs0).calls =
      (obter_historico_conversa env.pages).2.map Call.historyFetch ++
        [.mediaFetch, .sendText "Ocorreu um erro interno e não pude processar sua mensagem."] ∧
    (webhook_receiver ev env fs0).created = [] ∧
    (webhook_receiver ev env fs0).fs = ⟨false, false⟩ ∧
    (∀ content, Call.generate content ∉ (webhook_receiver ev env fs0).calls) := by
  have hexn : ∃ e, (audioSection env.media fs0).1 = AudioOut.exn e := by
    rcases hfetch with ⟨c, hc⟩ | hc
    · exact ⟨.httpStatus c, by simp [audioSection, audioTryBody, hc]⟩
    · exact ⟨.valueErr, by simp [audioSection, audioTryBody, hc]⟩
  have hcreated : (audioSection env.media fs0).2.2 = [] := by
    rcases hfetch with ⟨c, hc⟩ | hc
    · simp [audioSection, audioTryBody, hc]
    · simp [audioSection, audioTryBody, hc]
  have hfs : (audioSection env.media fs0).2.1 = ⟨false, false⟩ :=
    (rfl : (audioSection env.media fs0).2.1 = cleanupTemp (audioTryBody env.media fs0).2.1).trans
      (cleanupTemp_clears _)
  rcases hexn with ⟨e, he⟩
  have hrun : webhook_receiver ev env fs0 =
      outerExcept ((obter_historico_conversa env.pages).2.map Call.historyFetch ++ [.mediaFetch])
        (audioSection env.media fs0).2.1 (audioSection env.media fs0).2.2 := by
    simp [webhook_receiver, hev, hdata, hfrom, hjid, htgt, hhist, haud, hid, he]
  refine ⟨by rw [hrun]; rfl, ?_, ?_, ?_, ?_⟩
  · rw [hrun]
    simp [outerExcept]
  · rw [hrun, outerExcept, hcreated]
  · rw [hrun, outerExcept, hfs]
  · intro content hmem
    rw [hrun] at hmem
    simp [outerExcept] at hmem

/-- Witness for the amended C3 at the concrete 403 run. -/
theorem claim3_amended_witness :
    envC3.media.fetch = .httpStatusError 403 ∧
    (webhook_receiver evC3 envC3 ⟨false, false⟩).result = .httpError 500 ∧
    (webhook_receiver evC3 envC3 ⟨false, false⟩).created = [] ∧
    (webhook_receiver evC3 envC3 ⟨false, false⟩).fs = ⟨false, false⟩ := by
  have h := claim3_amended_media_failure evC3 envC3 ⟨false, false⟩
    ⟨some ⟨some "t@s.whatsapp.net", false, some "mid"⟩, some (.mk none none none true)⟩
    [⟨.user, [.text "oi"]⟩] rfl rfl rfl rfl (by decide) (by decide) rfl (by decide)
    (Or.inl ⟨403, rfl⟩)
  exact ⟨rfl, h.1, h.2.2.1, h.2.2.2.1⟩

/-- Claim C7 counterexample: generation succeeded but the final send answers
a non-2xx status; the request is reported as a 500 error, not as the
processed/success status. -/
theorem claim7_counterexample :
    (webhook_receiver evC7 envC7http ⟨false, false⟩).result = .httpError 500 ∧
    (webhook_receiver evC7 envC7http ⟨false, false⟩).result ≠ .ok "recebido_e_processado" :=
  ⟨by decide, by decide⟩

/-- Claim C7 (amended): when generation succeeded and the final outbound
send fails with a network error or timeout (`httpx.RequestError`), the
failure is logged only and the request is still reported with the
processed/success status; but when the final send answers a non-2xx
response, the `HTTPStatusError` escapes `enviar_resposta_whatsapp`, one
additional best-effort apology send is attempted, and the request is
reported as a 500 error instead. -/
theorem claim7_amended_delivery_failure (ev : Event) (env : Env) (fs0 : FileState)
    (d : EventData) (t : String) (historico : List Turn) (texto : String)
    (hev : ev.event = some "messages.upsert")
    (hdata : ev.data = some d)
    (hfrom : (d.key.map MsgKey.fromMe).getD false = false)
    (hjid : d.key.bind MsgKey.remoteJid = some env.targetJid)
    (htgt : env.targetJid ≠ "")
    (htext : classify (unwrapEphemeral (d.message.getD emptyMessageObj)) = .text t)
    (hhist : (obter_historico_conversa env.pages).1 = .ok historico)
    (hgen : env.gen = .ok texto) :
    ((env.send = .requestError ∨ env.send = .ok) →
      (webhook_receiver ev env fs0).result = .ok "recebido_e_processado") ∧
    (∀ c, env.send = .httpStatusError c →
      (webhook_receiver ev env fs0).result = .httpError 500 ∧
      (webhook_receiver ev env fs0).calls =
        (obter_historico_conversa env.pages).2.map Call.historyFetch ++
          [.generate (historico ++ [⟨.user, [.text t]⟩]),
           .presence "composing", .sleepDelay (tempo_de_espera texto.length),
           .presence "paused", .sendText texto,
           .sendText "Ocorreu um erro interno e não pude processar sua mensagem."]) := by
  have hrun : webhook_receiver ev env fs0 =
      proceedReply env historico [.text t]
        ((obter_historico_conversa env.pages).2.map Call.historyFetch) fs0 [] := by
    simp [webhook_receiver, hev, hdata, hfrom, hjid, htgt, hhist, htext]
  constructor
  · intro hs
    rw [hrun]
    rcases hs with hs | hs <;>
      simp [proceedReply, hgen, hs, enviar_resposta_whatsapp]
  · intro c hs
    rw [hrun]
    constructor
    · simp [proceedReply, hgen, hs, enviar_resposta_whatsapp, outerExcept]
    · simp [proceedReply, hgen, hs, enviar_resposta_whatsapp, outerExcept]

/-- Witness for the amended C7: with a concrete network-error send the run
still reports the processed status. -/
theorem claim7_amended_witness :
    envC7net.send = SendOutcome.requestError ∧
    (webhook_receiver evC7 envC7net ⟨false, false⟩).result = .ok "recebido_e_processado" := by
  have h := claim7_amended_delivery_failure evC7 envC7net ⟨false, false⟩
    ⟨some ⟨some "t@s.whatsapp.net", false, some "mid"⟩, some (.mk none none (some "oi") false)⟩
    "oi" [⟨.user, [.text "oi"]⟩] "Olá!" rfl rfl rfl rfl (by decide) (by decide) (by decide) rfl
  exact ⟨rfl, h.1 (Or.inl rfl)⟩

end WebhookWhatsapp
